import Mathlib

/-!
Verification of the `changed` crate (src/lib.rs): a change-tracking
container `Cd<T>` that owns one value `data : T` plus a dirty flag
`changed : Bool`.  Mutable state is modelled by explicit state passing:
each Rust method taking `&mut self` becomes a Lean function from the old
container to the new one; a method handing out a `&mut T` view is
modelled by the state after the call plus `Cd.writeView`, which applies
the caller's write through the outstanding view.  A trace semantics
(`Op`, `Cd.step`, `Cd.run`) lets us state the history invariant about
the flag.
-/

universe u

/-- Source `struct Cd<T> { data: T, changed: bool }` (src/lib.rs lines 38-41).
The projection `Cd.changed` doubles as the source accessor
`pub fn changed(this: &Cd<T>) -> bool { this.changed }` (lines 105-107),
and `Cd.data` is the private field. -/
structure Cd (T : Type u) where
  data : T
  changed : Bool

variable {T : Type u}

/-- Source `pub fn new(data: T) -> Cd<T>` (lines 51-56): wraps `data`,
flag initialised to `false`. -/
def Cd.new (data : T) : Cd T :=
  { data := data, changed := false }

/-- Source `pub fn new_true(data: T) -> Cd<T>` (lines 65-70): wraps `data`,
flag initialised to `true`. -/
def Cd.new_true (data : T) : Cd T :=
  { data := data, changed := true }

/-- Source `pub fn reset(this: &mut Cd<T>) { this.changed = false; }`
(lines 80-82). -/
def Cd.reset (c : Cd T) : Cd T :=
  { c with changed := false }

/-- Source `pub fn take(this: Cd<T>) -> T { this.data }` (lines 93-95):
consumes the container, returns the owned data. -/
def Cd.take (c : Cd T) : T :=
  c.data

/-- Source `pub fn silent_mut(this: &mut Cd<T>) -> &mut T { &mut this.data }`
(lines 117-119): hands out the mutable view without touching `changed`.
The state of the container at the moment the view is returned is
unchanged; the view itself is the `data` field, written through via
`Cd.writeView`. -/
def Cd.silent_mut (c : Cd T) : Cd T :=
  c

/-- Source `fn deref(&self) -> &T { &self.data }` (lines 133-135): the
immutable view; `&self` cannot alter the container. -/
def Cd.deref (c : Cd T) : T :=
  c.data

/-- Source `fn deref_mut(&mut self) -> &mut T { self.changed = true; &mut self.data }`
(lines 147-150): sets `changed = true` before returning the mutable
view.  The returned view is the `data` field of the resulting state,
written through via `Cd.writeView`. -/
def Cd.deref_mut (c : Cd T) : Cd T :=
  { c with changed := true }

/-- A caller writing through an outstanding `&mut T` view of `data`
(the view returned by `deref_mut` or `silent_mut`): the write `f` hits
the `data` field and nothing else. -/
def Cd.writeView (c : Cd T) (f : T → T) : Cd T :=
  { c with data := f c.data }

/-- Source `impl<T: Default> Default for Cd<T> { fn default() -> Self { Cd::new(T::default()) } }`
(lines 160-164); Rust's `Default` is rendered as `Inhabited`. -/
def Cd.default (T : Type u) [Inhabited T] : Cd T :=
  Cd.new (Inhabited.default)

/-- Source `impl<T: Clone> Clone for Cd<T>` (lines 166-173): copies
`data` via `T`'s clone (`cloneT`) and the `changed` flag verbatim. -/
def Cd.clone (cloneT : T → T) (c : Cd T) : Cd T :=
  { data := cloneT c.data, changed := c.changed }

/-- Source `impl<T: fmt::Debug> fmt::Debug for Cd<T>` (lines 175-180):
renders both fields; it takes `&self`, so it cannot alter the container. -/
def Cd.fmt (fmtT : T → String) (c : Cd T) : String :=
  "Cd \x7b data: " ++ fmtT c.data ++ ", changed: " ++
    (if c.changed then "true" else "false") ++ " \x7d"

/-- One API call on a container, for the trace semantics.  `derefMut f`
(resp. `silentMut f`) is a mutable-access call followed by the caller
writing `f` through the returned view; `derefRead`, `inspect`, `fmtOp`
and `cloneOp` are the `&self` operations `deref`, `changed`,
`Debug::fmt` and `Clone::clone`. -/
inductive Op (T : Type u) where
  | derefMut (f : T → T)
  | silentMut (f : T → T)
  | derefRead
  | inspect
  | fmtOp
  | cloneOp
  | reset

/-- The effect of one API call on the container state.  `Clone::clone`
takes `&self`, so cloning leaves the source container untouched (the
copy's fields are given by `Cd.clone`). -/
def Cd.step (c : Cd T) : Op T → Cd T
  | .derefMut f => (c.deref_mut).writeView f
  | .silentMut f => (c.silent_mut).writeView f
  | .derefRead => c
  | .inspect => c
  | .fmtOp => c
  | .cloneOp => c
  | .reset => c.reset

/-- Run a sequence of API calls from a starting state. -/
def Cd.run (c : Cd T) (ops : List (Op T)) : Cd T :=
  ops.foldl Cd.step c

/-- The `&self` operations: read-only dereference, flag inspection,
debug formatting. -/
def Op.isReadOnly : Op T → Bool
  | .derefRead => true
  | .inspect => true
  | .fmtOp => true
  | _ => false

/-- A mutable-access operation (`deref_mut`, the flag-setting path of §4)
occurs in the trace with no `reset` after it.  `silent_mut` is the
documented escape hatch outside the mutable-access contract and does not
count. -/
def MutAccessSinceReset (ops : List (Op T)) : Prop :=
  ∃ (pre : List (Op T)) (f : T → T) (post : List (Op T)),
    ops = pre ++ Op.derefMut f :: post ∧ Op.reset ∉ post

theorem mutAccessSinceReset_nil : ¬ MutAccessSinceReset ([] : List (Op T)) := by
  rintro ⟨pre, f, post, heq, -⟩
  cases pre <;> simp at heq

theorem mutAccessSinceReset_cons (op : Op T) (ops : List (Op T)) :
    MutAccessSinceReset (op :: ops) ↔
      ((∃ f, op = Op.derefMut f) ∧ Op.reset ∉ ops) ∨ MutAccessSinceReset ops := by
  constructor
  · rintro ⟨pre, f, post, heq, hpost⟩
    cases pre with
    | nil =>
        rw [List.nil_append] at heq
        injection heq with h1 h2
        exact Or.inl ⟨⟨f, h1⟩, h2 ▸ hpost⟩
    | cons a t =>
        rw [List.cons_append] at heq
        injection heq with h1 h2
        exact Or.inr ⟨t, f, post, h2, hpost⟩
  · rintro (⟨⟨f, rfl⟩, h⟩ | ⟨pre, f, post, heq, hpost⟩)
    · exact ⟨[], f, ops, rfl, h⟩
    · exact ⟨op :: pre, f, post, by rw [heq, List.cons_append], hpost⟩

theorem run_changed_iff (c : Cd T) (ops : List (Op T)) :
    (Cd.run c ops).changed = true ↔
      MutAccessSinceReset ops ∨ (c.changed = true ∧ Op.reset ∉ ops) := by
  induction ops generalizing c with
  | nil =>
      simp [Cd.run, mutAccessSinceReset_nil]
  | cons op ops ih =>
      have hrun : Cd.run c (op :: ops) = Cd.run (Cd.step c op) ops := rfl
      rw [hrun, ih]
      cases op <;>
        simp [Cd.step, Cd.deref_mut, Cd.silent_mut, Cd.writeView, Cd.reset,
          mutAccessSinceReset_cons, List.mem_cons] <;>
        tauto

theorem Cd.run_readonly : ∀ (ops : List (Op T)) (c : Cd T),
    (∀ op ∈ ops, op.isReadOnly = true) → Cd.run c ops = c
  | [], _, _ => rfl
  | op :: ops, c, h => by
      have hop : op.isReadOnly = true := h op (List.mem_cons_self op ops)
      have hops : ∀ o ∈ ops, o.isReadOnly = true :=
        fun o ho => h o (List.mem_cons_of_mem op ho)
      cases op with
      | derefMut f => simp [Op.isReadOnly] at hop
      | silentMut f => simp [Op.isReadOnly] at hop
      | cloneOp => simp [Op.isReadOnly] at hop
      | reset => simp [Op.isReadOnly] at hop
      | derefRead => exact Cd.run_readonly ops c hops
      | inspect => exact Cd.run_readonly ops c hops
      | fmtOp => exact Cd.run_readonly ops c hops

/-- Claim C1: for a container built by `new`, after any sequence of API
calls the `changed` flag is `true` if and only if a mutable-access
operation (`deref_mut`) occurred since construction with no `reset`
after it.  Traces may contain `silent_mut` calls, and they do not count
toward the iff: per §4 the silent-mutation path is the escape hatch
outside the mutable-access contract. -/
theorem Cd.changed_iff_mutable_access (v : T) (ops : List (Op T)) :
    (Cd.run (Cd.new v) ops).changed = true ↔ MutAccessSinceReset ops := by
  rw [run_changed_iff]
  simp [Cd.new]

/-- Claim C2: `deref_mut` sets `changed` to `true` as an unconditional
side effect before the view is used — whatever the caller writes through
the view (including the identity, i.e. no modification), the resulting
flag is `true`; in particular a container with `changed = false` is
flagged after one `deref_mut` with no value modification. -/
theorem Cd.deref_mut_sets_changed (c : Cd T) :
    (Cd.deref_mut c).changed = true ∧
      (∀ f : T → T, ((Cd.deref_mut c).writeView f).changed = true) ∧
      (c.changed = false → ((Cd.deref_mut c).writeView (fun x => x)).changed = true) :=
  ⟨rfl, fun _ => rfl, fun _ => rfl⟩

theorem Cd.deref_mut_sets_changed_witness :
    ((Cd.deref_mut (Cd.new (5 : Nat))).writeView (fun x => x)).changed = true :=
  (Cd.deref_mut_sets_changed (Cd.new 5)).2.2 rfl

/-- Claim C3: any number of read-only operations — read dereferences
(`deref`), flag inspections (`changed`), debug formatting (`fmt`) —
leaves both the `changed` flag and the `data` unchanged. -/
theorem Cd.read_only_ops_preserve_state (c : Cd T) (ops : List (Op T))
    (h : ∀ op ∈ ops, op.isReadOnly = true) :
    (Cd.run c ops).changed = c.changed ∧ (Cd.run c ops).data = c.data := by
  rw [Cd.run_readonly ops c h]
  exact ⟨rfl, rfl⟩

theorem Cd.read_only_ops_preserve_state_witness :
    (Cd.run (Cd.new (5 : Nat)) [Op.derefRead, Op.inspect, Op.fmtOp]).changed = false ∧
      (Cd.run (Cd.new (5 : Nat)) [Op.derefRead, Op.inspect, Op.fmtOp]).data = 5 :=
  Cd.read_only_ops_preserve_state (Cd.new 5) [Op.derefRead, Op.inspect, Op.fmtOp]
    (by simp [Op.isReadOnly])

/-- Claim C4: construction determines the flag — `new v` has flag
`false`, `new_true v` (the spec's `new_with_flag(v, true)`) has flag
`true`, and `default` equals `new` of the value type's default, with
flag `false`. -/
theorem Cd.construction_flags (S : Type u) [Inhabited S] (v : T) :
    (Cd.new v).changed = false ∧ (Cd.new_true v).changed = true ∧
      Cd.default S = Cd.new (Inhabited.default) ∧ (Cd.default S).changed = false :=
  ⟨rfl, rfl, rfl, rfl⟩

theorem Cd.construction_flags_witness :
    (Cd.new (3 : Nat)).changed = false ∧ (Cd.new_true (3 : Nat)).changed = true ∧
      Cd.default Nat = Cd.new (Inhabited.default) ∧ (Cd.default Nat).changed = false :=
  Cd.construction_flags Nat 3

/-- Claim C5: `reset` sets the flag to `false` unconditionally (whatever
its prior value) and leaves `data` untouched. -/
theorem Cd.reset_clears_flag (c : Cd T) :
    (Cd.reset c).changed = false ∧ (Cd.reset c).data = c.data :=
  ⟨rfl, rfl⟩

/-- Claim C6: writing through the view returned by `silent_mut` leaves a
clean flag clean while the owned value reflects the modification. -/
theorem Cd.silent_mut_preserves_flag (c : Cd T) (f : T → T)
    (h : c.changed = false) :
    ((Cd.silent_mut c).writeView f).changed = false ∧
      ((Cd.silent_mut c).writeView f).data = f c.data :=
  ⟨h, rfl⟩

theorem Cd.silent_mut_preserves_flag_witness :
    ((Cd.silent_mut (Cd.new (5 : Nat))).writeView (fun x => x + 5)).changed = false ∧
      ((Cd.silent_mut (Cd.new (5 : Nat))).writeView (fun x => x + 5)).data = 10 :=
  Cd.silent_mut_preserves_flag (Cd.new 5) (fun x => x + 5) rfl

/-- Claim C7: cloning copies the `changed` flag verbatim, and — whenever
`T`'s clone yields a value equal to its argument, as for every
well-behaved `Clone` — the clone equals the original container, so
neither value nor flag is disturbed on the copy; the source is untouched
since `clone` takes `&self`. -/
theorem Cd.clone_copies_flag_and_data (cloneT : T → T) (c : Cd T) :
    (Cd.clone cloneT c).changed = c.changed ∧
      ((∀ x, cloneT x = x) → Cd.clone cloneT c = c) := by
  refine ⟨rfl, fun h => ?_⟩
  show Cd.mk (cloneT c.data) c.changed = c
  rw [h c.data]

theorem Cd.clone_copies_flag_and_data_witness :
    (Cd.clone (fun x => x) (Cd.new_true (7 : Nat))).changed = true ∧
      Cd.clone (fun x => x) (Cd.new_true (7 : Nat)) = Cd.new_true 7 :=
  ⟨(Cd.clone_copies_flag_and_data (fun x => x) (Cd.new_true 7)).1,
    (Cd.clone_copies_flag_and_data (fun x => x) (Cd.new_true 7)).2 (fun _ => rfl)⟩

/-- Claim C8: `reset` is idempotent — two resets in a row leave the
container (flag and data) exactly as one does. -/
theorem Cd.reset_idempotent (c : Cd T) :
    Cd.reset (Cd.reset c) = Cd.reset c :=
  rfl

/-- Claim C9: `take` on a fresh container returns the wrapped value
unchanged, and in general `take` yields exactly the owned `data`.
(The container's lifetime ending — any later use being rejected — is
Rust's ownership discipline, outside the functional model.) -/
theorem Cd.take_new_roundtrip (v : T) (c : Cd T) :
    Cd.take (Cd.new v) = v ∧ Cd.take c = c.data :=
  ⟨rfl, rfl⟩

/-- Claim C10: once the flag is `true`, every operation other than
`reset` — mutable dereference, silent mutation, read dereference, flag
inspection, cloning, debug formatting — keeps it `true` on the
container, and cloning also yields a copy whose flag is `true`; and
`take` returns the owned data regardless of the flag, in particular on
a `new_true` container. -/
theorem Cd.only_reset_clears_flag (c : Cd T) (op : Op T) (cloneT : T → T)
    (v : T) (hne : op ≠ Op.reset) (hc : c.changed = true) :
    (Cd.step c op).changed = true ∧ (Cd.clone cloneT c).changed = true ∧
      Cd.take (Cd.new_true v) = v := by
  refine ⟨?_, hc, rfl⟩
  cases op with
  | derefMut f => rfl
  | silentMut f => exact hc
  | derefRead => exact hc
  | inspect => exact hc
  | fmtOp => exact hc
  | cloneOp => exact hc
  | reset => exact absurd rfl hne

theorem Cd.only_reset_clears_flag_witness :
    (Cd.step (Cd.new_true (5 : Nat)) (Op.derefMut (fun x => x + 1))).changed = true ∧
      (Cd.clone (fun x => x) (Cd.new_true (5 : Nat))).changed = true ∧
      Cd.take (Cd.new_true (5 : Nat)) = 5 :=
  Cd.only_reset_clears_flag (Cd.new_true 5) (Op.derefMut (fun x => x + 1))
    (fun x => x) 5 (fun h => Op.noConfusion h) rfl
